import Mathlib

/-!
Shallow embedding of the single-page gallery client (src/script.js).

The script owns two mutable variables, `images` (list of records fetched from the
server) and `currentIndex`, plus a DOM surface (thumbnail reel, large-image detail
pane, navigation and upload buttons) and user-visible alerts.  We model the whole
observable state as one structure `St`, remote responses as inductive types, and
each handler of the script as a pure function `St → inputs → St × Outcome`, where
`Outcome.uncaughtError` marks an exception that escapes the handler (a rejected
promise with no user-visible notice).  All alerts raised and all network requests
issued are logged in the state, so that claims about notices and about "no network
call" are directly expressible.
-/

/-- An image record as served by GET /api/images: at least a server-assigned
identifier (public_id), a url and a filename. -/
structure ImageRecord where
  public_id : String
  url : String
  filename : String
deriving DecidableEq

/-- How a handler invocation ends: normal completion (all errors caught and
converted to alerts), or an exception escaping the handler uncaught. -/
inductive Outcome where
  | normal
  | uncaughtError (msg : String)
deriving DecidableEq

/-- The observable state of the page: the two script variables `images` and
`currentIndex`, the DOM surface the script manipulates, the alerts shown to the
user and the network requests issued (both append-only logs). -/
structure St where
  images : List ImageRecord
  currentIndex : Int
  detailHidden : Bool
  largeImageSrc : String
  selectedFlags : List Bool
  reelPlaceholder : Bool
  reelScrolledToEnd : Bool
  prevDisabled : Bool
  nextDisabled : Bool
  uploadBtnDisabled : Bool
  uploadBtnLabel : String
  fileSelected : Bool
  alerts : List String
  requests : List String
deriving DecidableEq

/-- JavaScript array indexing `l[i]`: `undefined` (here `none`) for a negative
index or an index at or beyond the length. -/
def jsIndex (l : List ImageRecord) (i : Int) : Option ImageRecord :=
  if 0 ≤ i then l[i.toNat]? else none

/-- A user-visible notice: `alert(m)` appends to the alert log. -/
def alertMsg (s : St) (m : String) : St :=
  { s with alerts := s.alerts ++ [m] }

/-- A network request being issued is logged. -/
def request (s : St) (r : String) : St :=
  { s with requests := s.requests ++ [r] }

/-- highlightCurrentImage: iterates over the thumbnail img elements present in
the DOM and toggles the selected class on each to (its position = currentIndex). -/
def highlightCurrentImage (s : St) : St :=
  { s with selectedFlags :=
      (List.range s.selectedFlags.length).map (fun i => decide (Int.ofNat i = s.currentIndex)) }

/-- displayThumbnails: clears the reel, shows a placeholder message when `images`
is empty, appends one (unselected) thumbnail per image, then calls
highlightCurrentImage. -/
def displayThumbnails (s : St) : St :=
  let s1 : St := { s with
    reelPlaceholder := s.images.isEmpty,
    selectedFlags := List.replicate s.images.length false }
  highlightCurrentImage s1

/-- showImage(index) (the spec calls it selectImage): sets currentIndex, then
reads `images[index].url` — which throws a TypeError when the index is out of
range — sets the large image src, unhides the detail pane, re-highlights, and
updates the prev and next button disabled flags. -/
def showImage (s : St) (index : Int) : St × Outcome :=
  let s1 : St := { s with currentIndex := index }
  match jsIndex s1.images index with
  | none => (s1, Outcome.uncaughtError "TypeError: cannot read url of undefined")
  | some img =>
    let s2 : St := { s1 with largeImageSrc := img.url, detailHidden := false }
    let s3 := highlightCurrentImage s2
    let s4 : St := { s3 with
      prevDisabled := decide (index = 0),
      nextDisabled := decide (index = (s3.images.length : Int) - 1) }
    (s4, Outcome.normal)

/-- selectImage is the spec name for showImage. -/
abbrev selectImage : St → Int → St × Outcome := showImage

/-- The delete endpoint response: the fetch promise rejected, or an HTTP
response with ok true or false. -/
inductive DeleteResponse where
  | rejected
  | httpStatus (ok : Bool)
deriving DecidableEq

/-- deleteImage (the spec calls it deleteCurrent): returns early when the list
is empty, currentIndex is negative, or the confirmation prompt is declined.
Note the guard does NOT check the upper bound: the lookup
`images[currentIndex].public_id` happens BEFORE the try block, so a dangling
currentIndex throws a TypeError outside the error-catching boundary.  Inside the
try: on a rejected fetch or non-ok status an alert is shown and nothing else
changes; on success the record is spliced out, then either the detail pane is
hidden (list became empty) or currentIndex is clamped and shown, and finally the
thumbnails are re-rendered. -/
def deleteImage (s : St) (confirmed : Bool) (resp : DeleteResponse) : St × Outcome :=
  if s.images.length = 0 ∨ s.currentIndex < 0 ∨ confirmed = false then (s, Outcome.normal)
  else
    match jsIndex s.images s.currentIndex with
    | none => (s, Outcome.uncaughtError "TypeError: cannot read public_id of undefined")
    | some img =>
      let s1 := request s ("DELETE /api/delete/" ++ img.public_id)
      match resp with
      | DeleteResponse.rejected =>
          (alertMsg s1 "Failed to delete. Try again.", Outcome.normal)
      | DeleteResponse.httpStatus false =>
          (alertMsg s1 "Failed to delete. Try again.", Outcome.normal)
      | DeleteResponse.httpStatus true =>
        let s2 : St := { s1 with images := s1.images.eraseIdx s1.currentIndex.toNat }
        if s2.images.length = 0 then
          let s3 : St := { s2 with detailHidden := true }
          (displayThumbnails s3, Outcome.normal)
        else
          let s3 : St := { s2 with
            currentIndex := min s2.currentIndex ((s2.images.length : Int) - 1) }
          match showImage s3 s3.currentIndex with
          | (s4, Outcome.normal) => (displayThumbnails s4, Outcome.normal)
          | (s4, Outcome.uncaughtError _) =>
              (alertMsg s4 "Failed to delete. Try again.", Outcome.normal)

/-- The listing endpoint response: the fetch promise rejected (which also covers
a failing response.json()), a response with ok false, or a parsed list. -/
inductive FetchResponse where
  | rejected
  | httpError
  | ok (newImages : List ImageRecord)
deriving DecidableEq

/-- fetchImages (the spec calls it fetchAndSync): on a rejected fetch or non-ok
status, an alert and no state change.  On success: if the new list is strictly
longer, currentIndex jumps to the new last index and the reel auto-scrolls;
otherwise currentIndex is preserved with NO clamping.  Then `images` is replaced,
thumbnails re-render, and if the list is non-empty showImage(currentIndex) runs —
still inside the try, so a dangling currentIndex makes it throw and the catch
shows the same failure alert, with `images` already replaced. -/
def fetchImages (s : St) (resp : FetchResponse) : St × Outcome :=
  let s0 := request s "GET /api/images"
  match resp with
  | FetchResponse.rejected =>
      (alertMsg s0 "Failed to load images. Refresh page.", Outcome.normal)
  | FetchResponse.httpError =>
      (alertMsg s0 "Failed to load images. Refresh page.", Outcome.normal)
  | FetchResponse.ok newImages =>
    let s1 : St :=
      if s0.images.length < newImages.length then
        { s0 with currentIndex := (newImages.length : Int) - 1, reelScrolledToEnd := true }
      else s0
    let s2 : St := { s1 with images := newImages }
    let s3 := displayThumbnails s2
    if s3.images.length ≠ 0 then
      match showImage s3 s3.currentIndex with
      | (s4, Outcome.normal) => (s4, Outcome.normal)
      | (s4, Outcome.uncaughtError _) =>
          (alertMsg s4 "Failed to load images. Refresh page.", Outcome.normal)
    else
      ({ s3 with detailHidden := true }, Outcome.normal)

/-- The upload endpoint response: rejected with a network error message, an HTTP
error whose JSON body may carry an error field, or success. -/
inductive UploadResponse where
  | rejected (msg : String)
  | httpError (errField : Option String)
  | ok
deriving DecidableEq

/-- handleUpload: with no file selected, an alert and an early return — no
request is issued.  Otherwise the try block declares `const uploadBtn` (scoped to
the try block only), disables it, sets the busy label and issues the request.
On success the file selection is cleared and fetchImages() runs; on failure an
alert with the server error field (or a generic message) is shown.  The finally
block then references `uploadBtn`, which is NOT in scope there — the very first
statement throws a ReferenceError before assigning anything, so the button is
never re-enabled and the handler ends in an uncaught error on every path. -/
def handleUpload (s : St) (resp : UploadResponse) (listResp : FetchResponse) :
    St × Outcome :=
  if s.fileSelected = false then
    (alertMsg s "Please select a file to upload", Outcome.normal)
  else
    let s1 : St := { s with uploadBtnDisabled := true, uploadBtnLabel := "Uploading..." }
    let s2 := request s1 "POST /api/upload"
    let s3 : St :=
      match resp with
      | UploadResponse.ok =>
          let sa : St := { s2 with fileSelected := false }
          (fetchImages sa listResp).1
      | UploadResponse.rejected m => alertMsg s2 ("Failed to upload: " ++ m)
      | UploadResponse.httpError errField =>
          alertMsg s2 ("Failed to upload: " ++ errField.getD "Upload failed")
    (s3, Outcome.uncaughtError "ReferenceError: uploadBtn is not defined")

/-- The prev button click handler: `currentIndex > 0 && showImage(currentIndex - 1)`. -/
def stepPrev (s : St) : St × Outcome :=
  if 0 < s.currentIndex then showImage s (s.currentIndex - 1) else (s, Outcome.normal)

/-- The next button click handler:
`currentIndex < images.length - 1 && showImage(currentIndex + 1)`. -/
def stepNext (s : St) : St × Outcome :=
  if s.currentIndex < (s.images.length : Int) - 1 then showImage s (s.currentIndex + 1)
  else (s, Outcome.normal)

/-- The keys the keydown handler distinguishes. -/
inductive Key where
  | arrowLeft
  | arrowRight
  | del
  | other
deriving DecidableEq

/-- The keydown handler: ignored entirely when `images` is empty; ArrowLeft and
ArrowRight repeat the prev and next click guards verbatim; Ctrl+Delete calls
deleteImage. -/
def keydown (s : St) (k : Key) (ctrl : Bool) (confirmed : Bool) (resp : DeleteResponse) :
    St × Outcome :=
  if s.images.length = 0 then (s, Outcome.normal)
  else
    match k with
    | Key.arrowLeft =>
        if 0 < s.currentIndex then showImage s (s.currentIndex - 1) else (s, Outcome.normal)
    | Key.arrowRight =>
        if s.currentIndex < (s.images.length : Int) - 1 then showImage s (s.currentIndex + 1)
        else (s, Outcome.normal)
    | Key.del =>
        if ctrl then deleteImage s confirmed resp else (s, Outcome.normal)
    | Key.other => (s, Outcome.normal)

/-- The gallery invariant of the spec: whenever a claim speaks of a valid index,
it means 0 <= currentIndex < images.length. -/
def indexInRange (s : St) : Prop :=
  0 ≤ s.currentIndex ∧ s.currentIndex < (s.images.length : Int)

instance (s : St) : Decidable (indexInRange s) := by
  unfold indexInRange; infer_instance

/-- A concrete image record used in witnesses and counterexamples. -/
def imgA : ImageRecord := ⟨"idA", "https://img/a", "a.jpg"⟩

/-- A second concrete image record. -/
def imgB : ImageRecord := ⟨"idB", "https://img/b", "b.jpg"⟩

/-- A third concrete image record. -/
def imgC : ImageRecord := ⟨"idC", "https://img/c", "c.jpg"⟩

/-- A fresh record, as a fetch result element. -/
def imgX : ImageRecord := ⟨"idX", "https://img/x", "x.jpg"⟩

/-- A concrete baseline state with two images and currentIndex 1, thumbnails in
sync, nothing disabled, no alerts or requests yet. -/
def stAB : St :=
  { images := [imgA, imgB]
    currentIndex := 1
    detailHidden := false
    largeImageSrc := "https://img/b"
    selectedFlags := [false, true]
    reelPlaceholder := false
    reelScrolledToEnd := false
    prevDisabled := false
    nextDisabled := true
    uploadBtnDisabled := false
    uploadBtnLabel := "Upload"
    fileSelected := false
    alerts := []
    requests := [] }

/-- A concrete state with three images and currentIndex 2, as in the spec
deletion scenario. -/
def stABC : St :=
  { stAB with
    images := [imgA, imgB, imgC]
    currentIndex := 2
    largeImageSrc := "https://img/c"
    selectedFlags := [false, false, true] }

/-! ### Helper lemmas about the rendering primitives -/

/-- A valid index reads the corresponding list element. -/
lemma jsIndex_valid (l : List ImageRecord) (i : Int) (h0 : 0 ≤ i)
    (h1 : i.toNat < l.length) : jsIndex l i = some (l.get ⟨i.toNat, h1⟩) := by
  unfold jsIndex
  rw [if_pos h0, List.getElem?_eq_getElem h1]
  rfl

/-- An index at or beyond the length reads undefined. -/
lemma jsIndex_ge (l : List ImageRecord) (i : Int) (h : (l.length : Int) ≤ i) :
    jsIndex l i = none := by
  unfold jsIndex
  rw [if_pos (by omega), List.getElem?_eq_none (by omega)]

/-- displayThumbnails in closed form: one flag per image, selected exactly at
currentIndex (when that is in range). -/
lemma displayThumbnails_eq (s : St) :
    displayThumbnails s =
      { s with reelPlaceholder := s.images.isEmpty,
               selectedFlags := (List.range s.images.length).map
                 (fun j => decide (Int.ofNat j = s.currentIndex)) } := by
  simp only [displayThumbnails, highlightCurrentImage, List.length_replicate]

/-- showImage on a valid index, in closed form. -/
lemma showImage_valid (s : St) (i : Int) (h0 : 0 ≤ i) (h1 : i.toNat < s.images.length) :
    showImage s i =
      ({ s with currentIndex := i,
                largeImageSrc := (s.images.get ⟨i.toNat, h1⟩).url,
                detailHidden := false,
                selectedFlags := (List.range s.selectedFlags.length).map
                  (fun j => decide (Int.ofNat j = i)),
                prevDisabled := decide (i = 0),
                nextDisabled := decide (i = (s.images.length : Int) - 1) },
       Outcome.normal) := by
  simp only [showImage, jsIndex_valid s.images i h0 h1, highlightCurrentImage]

/-- showImage never changes the image list, the button state of the upload
control, the alert log or the request log, and always writes its argument to
currentIndex. -/
lemma showImage_frame (s : St) (i : Int) :
    (showImage s i).1.images = s.images ∧
    (showImage s i).1.currentIndex = i ∧
    (showImage s i).1.uploadBtnDisabled = s.uploadBtnDisabled ∧
    (showImage s i).1.uploadBtnLabel = s.uploadBtnLabel ∧
    (showImage s i).1.fileSelected = s.fileSelected ∧
    (showImage s i).1.alerts = s.alerts ∧
    (showImage s i).1.requests = s.requests := by
  rcases h : jsIndex s.images i with _ | img <;>
    simp [showImage, h, highlightCurrentImage]


lemma delete_success_eq_toEmpty (s : St) (h0 : 0 ≤ s.currentIndex)
    (h1 : s.currentIndex < (s.images.length : Int))
    (hz : (s.images.eraseIdx s.currentIndex.toNat).length = 0) :
    deleteImage s true (DeleteResponse.httpStatus true) =
      ({ s with images := s.images.eraseIdx s.currentIndex.toNat,
                detailHidden := true,
                selectedFlags := [],
                reelPlaceholder := true,
                requests := s.requests ++ ["DELETE /api/delete/" ++
                  (s.images.get ⟨s.currentIndex.toNat, by omega⟩).public_id] },
       Outcome.normal) := by
  have hlen : s.currentIndex.toNat < s.images.length := by omega
  have hguard : ¬ (s.images.length = 0 ∨ s.currentIndex < 0 ∨ (true : Bool) = false) := by
    push_neg
    exact ⟨by omega, by omega, by simp⟩
  simp only [deleteImage, if_neg hguard,
    jsIndex_valid s.images s.currentIndex h0 hlen, request]
  rw [if_pos hz]
  simp only [displayThumbnails_eq]
  have herase : (s.images.eraseIdx s.currentIndex.toNat).length = s.images.length - 1 := by
    rw [List.length_eraseIdx]
    simp [hlen]
  congr 1
  · simp [hz]
    exact Or.inr ⟨by omega, by omega⟩

lemma delete_success_eq_clamp (s : St) (h0 : 0 ≤ s.currentIndex)
    (h1 : s.currentIndex < (s.images.length : Int))
    (hz : (s.images.eraseIdx s.currentIndex.toNat).length ≠ 0) :
    deleteImage s true (DeleteResponse.httpStatus true) =
      ({ s with
          images := s.images.eraseIdx s.currentIndex.toNat,
          currentIndex := min s.currentIndex
            (((s.images.eraseIdx s.currentIndex.toNat).length : Int) - 1),
          detailHidden := false,
          largeImageSrc := ((s.images.eraseIdx s.currentIndex.toNat).get
            ⟨(min s.currentIndex
              (((s.images.eraseIdx s.currentIndex.toNat).length : Int) - 1)).toNat,
              by omega⟩).url,
          selectedFlags := (List.range (s.images.eraseIdx s.currentIndex.toNat).length).map
            (fun j => decide (Int.ofNat j = min s.currentIndex
              (((s.images.eraseIdx s.currentIndex.toNat).length : Int) - 1))),
          reelPlaceholder := (s.images.eraseIdx s.currentIndex.toNat).isEmpty,
          prevDisabled := decide (min s.currentIndex
              (((s.images.eraseIdx s.currentIndex.toNat).length : Int) - 1) = 0),
          nextDisabled := decide (min s.currentIndex
              (((s.images.eraseIdx s.currentIndex.toNat).length : Int) - 1) =
              ((s.images.eraseIdx s.currentIndex.toNat).length : Int) - 1),
          requests := s.requests ++ ["DELETE /api/delete/" ++
            (s.images.get ⟨s.currentIndex.toNat, by omega⟩).public_id] },
       Outcome.normal) := by
  have hlen : s.currentIndex.toNat < s.images.length := by omega
  have hguard : ¬ (s.images.length = 0 ∨ s.currentIndex < 0 ∨ (true : Bool) = false) := by
    push_neg
    exact ⟨by omega, by omega, by simp⟩
  have hv0 : (0 : Int) ≤ min s.currentIndex
      (((s.images.eraseIdx s.currentIndex.toNat).length : Int) - 1) := by omega
  have hv1 : (min s.currentIndex
      (((s.images.eraseIdx s.currentIndex.toNat).length : Int) - 1)).toNat <
      (s.images.eraseIdx s.currentIndex.toNat).length := by omega
  simp only [deleteImage, if_neg hguard,
    jsIndex_valid s.images s.currentIndex h0 hlen, request]
  rw [if_neg hz]
  rw [showImage_valid _ _ hv0 hv1]
  simp only [displayThumbnails_eq]

/-- Shorthand for the index the fetch reconciliation policy produces: jump to
the new last index when the list grew strictly, else keep currentIndex. -/
def fetchNewIndex (s : St) (newImages : List ImageRecord) : Int :=
  if s.images.length < newImages.length then (newImages.length : Int) - 1
  else s.currentIndex

lemma fetch_ok_eq (s : St) (newImages : List ImageRecord)
    (hv0 : 0 ≤ fetchNewIndex s newImages)
    (hv1 : (fetchNewIndex s newImages).toNat < newImages.length) :
    fetchImages s (FetchResponse.ok newImages) =
      ({ s with
          images := newImages,
          currentIndex := fetchNewIndex s newImages,
          detailHidden := false,
          largeImageSrc := (newImages.get ⟨(fetchNewIndex s newImages).toNat, hv1⟩).url,
          selectedFlags := (List.range newImages.length).map
            (fun j => decide (Int.ofNat j = fetchNewIndex s newImages)),
          reelPlaceholder := newImages.isEmpty,
          reelScrolledToEnd := if s.images.length < newImages.length then true
            else s.reelScrolledToEnd,
          prevDisabled := decide (fetchNewIndex s newImages = 0),
          nextDisabled := decide (fetchNewIndex s newImages = (newImages.length : Int) - 1),
          requests := s.requests ++ ["GET /api/images"] },
       Outcome.normal) := by
  have hne : newImages.length ≠ 0 := by omega
  by_cases hgrow : s.images.length < newImages.length
  · simp only [fetchNewIndex, if_pos hgrow] at hv0 hv1 ⊢
    simp only [fetchImages, request, if_pos hgrow]
    simp only [displayThumbnails_eq]
    rw [if_pos hne]
    rw [showImage_valid _ _ hv0 hv1]
    simp only [List.length_map, List.length_range]
  · simp only [fetchNewIndex, if_neg hgrow] at hv0 hv1 ⊢
    simp only [fetchImages, request, if_neg hgrow]
    simp only [displayThumbnails_eq]
    rw [if_pos hne]
    rw [showImage_valid _ _ hv0 hv1]
    simp only [List.length_map, List.length_range]

lemma showImage_uploadBtnDisabled (s : St) (i : Int) :
    (showImage s i).1.uploadBtnDisabled = s.uploadBtnDisabled := by
  rcases h : jsIndex s.images i with _ | img <;>
    simp [showImage, h, highlightCurrentImage]

lemma showImage_uploadBtnLabel (s : St) (i : Int) :
    (showImage s i).1.uploadBtnLabel = s.uploadBtnLabel := by
  rcases h : jsIndex s.images i with _ | img <;>
    simp [showImage, h, highlightCurrentImage]

lemma fetchImages_uploadBtn (s : St) (resp : FetchResponse) :
    (fetchImages s resp).1.uploadBtnDisabled = s.uploadBtnDisabled ∧
    (fetchImages s resp).1.uploadBtnLabel = s.uploadBtnLabel := by
  cases resp with
  | rejected => simp [fetchImages, alertMsg, request]
  | httpError => simp [fetchImages, alertMsg, request]
  | ok newImages =>
    simp only [fetchImages, request]
    split_ifs with h1 h2 <;>
    first
      | exact ⟨rfl, rfl⟩
      | (split <;> rename_i s4 heq <;>
          (have hfd := congrArg (fun p => p.1.uploadBtnDisabled) heq
           have hfl := congrArg (fun p => p.1.uploadBtnLabel) heq
           simp only [showImage_uploadBtnDisabled, showImage_uploadBtnLabel,
             displayThumbnails_eq] at hfd hfl
           exact ⟨by simpa [alertMsg] using hfd.symm, by simpa [alertMsg] using hfl.symm⟩))

lemma fetchImages_uploadBtnDisabled (s : St) (resp : FetchResponse) :
    (fetchImages s resp).1.uploadBtnDisabled = s.uploadBtnDisabled :=
  (fetchImages_uploadBtn s resp).1

lemma fetchImages_uploadBtnLabel (s : St) (resp : FetchResponse) :
    (fetchImages s resp).1.uploadBtnLabel = s.uploadBtnLabel :=
  (fetchImages_uploadBtn s resp).2

/-! ### Claim theorems -/

/-- Claim C10: the guard of deleteImage checks only that the list is non-empty
and currentIndex is not negative, not the upper bound; for every state with
0 < images.length <= currentIndex (and a confirmed prompt), the lookup of
images[currentIndex].public_id runs before the try block, throws, and escapes
the handler with no user-visible notice and no state change — in particular the
alert log is untouched. -/
theorem C10_delete_guard_gap_uncaught (s : St) (resp : DeleteResponse)
    (h1 : 0 < s.images.length) (h2 : (s.images.length : Int) ≤ s.currentIndex) :
    deleteImage s true resp =
      (s, Outcome.uncaughtError "TypeError: cannot read public_id of undefined") := by
  have hguard : ¬ (s.images.length = 0 ∨ s.currentIndex < 0 ∨ (true : Bool) = false) := by
    push_neg
    exact ⟨by omega, by omega, by simp⟩
  simp only [deleteImage, if_neg hguard, jsIndex_ge s.images s.currentIndex h2]

/-- Witness for C10 at a concrete dangling state: one image, currentIndex 1. -/
theorem C10_witness :
    0 < ({ stAB with images := [imgA] } : St).images.length ∧
    ((({ stAB with images := [imgA] } : St).images.length : Int) ≤
      ({ stAB with images := [imgA] } : St).currentIndex) ∧
    deleteImage { stAB with images := [imgA] } true DeleteResponse.rejected =
      ({ stAB with images := [imgA] },
       Outcome.uncaughtError "TypeError: cannot read public_id of undefined") :=
  ⟨by decide, by decide,
   C10_delete_guard_gap_uncaught { stAB with images := [imgA] } DeleteResponse.rejected
     (by decide) (by decide)⟩

/-- Claim C5: with a non-empty list and a valid currentIndex, a confirmed delete
whose remote call fails (rejected promise or non-ok status) leaves images and
currentIndex (and the detail pane) unchanged, removes nothing, and raises the
failure alert. -/
theorem C5_delete_failure_state_unchanged (s : St) (resp : DeleteResponse)
    (h0 : 0 ≤ s.currentIndex) (h1 : s.currentIndex < (s.images.length : Int))
    (hfail : resp = DeleteResponse.rejected ∨ resp = DeleteResponse.httpStatus false) :
    (deleteImage s true resp).2 = Outcome.normal ∧
    (deleteImage s true resp).1.images = s.images ∧
    (deleteImage s true resp).1.currentIndex = s.currentIndex ∧
    (deleteImage s true resp).1.detailHidden = s.detailHidden ∧
    (deleteImage s true resp).1.largeImageSrc = s.largeImageSrc ∧
    (deleteImage s true resp).1.alerts = s.alerts ++ ["Failed to delete. Try again."] := by
  have hlen : s.currentIndex.toNat < s.images.length := by omega
  have hguard : ¬ (s.images.length = 0 ∨ s.currentIndex < 0 ∨ (true : Bool) = false) := by
    push_neg
    exact ⟨by omega, by omega, by simp⟩
  rcases hfail with rfl | rfl <;>
    (simp only [deleteImage, if_neg hguard, jsIndex_valid s.images s.currentIndex h0 hlen,
       request, alertMsg]
     refine ⟨?_, ?_, ?_, ?_, ?_, ?_⟩ <;> trivial)

/-- Witness for C5 at the concrete two-image state with a rejected delete. -/
theorem C5_witness :
    0 ≤ stAB.currentIndex ∧ stAB.currentIndex < (stAB.images.length : Int) ∧
    (deleteImage stAB true DeleteResponse.rejected).1.images = stAB.images ∧
    (deleteImage stAB true DeleteResponse.rejected).1.alerts =
      stAB.alerts ++ ["Failed to delete. Try again."] :=
  ⟨by decide, by decide,
   (C5_delete_failure_state_unchanged stAB DeleteResponse.rejected (by decide) (by decide)
     (Or.inl rfl)).2.1,
   (C5_delete_failure_state_unchanged stAB DeleteResponse.rejected (by decide) (by decide)
     (Or.inl rfl)).2.2.2.2.2⟩

/-- Claim C4: a confirmed delete on a list of length n at valid index i whose
remote call succeeds removes exactly the element at i (resulting length n-1);
when the list stays non-empty, currentIndex becomes min(i, n-2) and the detail
pane shows the record at that index; when it becomes empty, the detail pane is
hidden. -/
theorem C4_deleteCurrent_success (s : St) (h0 : 0 ≤ s.currentIndex)
    (h1 : s.currentIndex < (s.images.length : Int)) :
    (deleteImage s true (DeleteResponse.httpStatus true)).2 = Outcome.normal ∧
    (deleteImage s true (DeleteResponse.httpStatus true)).1.images =
      s.images.eraseIdx s.currentIndex.toNat ∧
    (deleteImage s true (DeleteResponse.httpStatus true)).1.images.length + 1 =
      s.images.length ∧
    ((deleteImage s true (DeleteResponse.httpStatus true)).1.images.length = 0 →
      (deleteImage s true (DeleteResponse.httpStatus true)).1.detailHidden = true) ∧
    (0 < (deleteImage s true (DeleteResponse.httpStatus true)).1.images.length →
      (deleteImage s true (DeleteResponse.httpStatus true)).1.currentIndex =
        min s.currentIndex ((s.images.length : Int) - 2) ∧
      (deleteImage s true (DeleteResponse.httpStatus true)).1.detailHidden = false ∧
      (jsIndex (deleteImage s true (DeleteResponse.httpStatus true)).1.images
          (deleteImage s true (DeleteResponse.httpStatus true)).1.currentIndex).map
        ImageRecord.url =
        some (deleteImage s true (DeleteResponse.httpStatus true)).1.largeImageSrc) := by
  have hlen : s.currentIndex.toNat < s.images.length := by omega
  have herase : (s.images.eraseIdx s.currentIndex.toNat).length = s.images.length - 1 := by
    rw [List.length_eraseIdx]
    simp [hlen]
  by_cases hz : (s.images.eraseIdx s.currentIndex.toNat).length = 0
  · rw [delete_success_eq_toEmpty s h0 h1 hz]
    refine ⟨rfl, rfl, ?_, fun _ => rfl, fun hpos => absurd hpos ?_⟩
    · show (s.images.eraseIdx s.currentIndex.toNat).length + 1 = s.images.length
      omega
    · show ¬ 0 < (s.images.eraseIdx s.currentIndex.toNat).length
      omega
  · have hv0 : (0 : Int) ≤ min s.currentIndex
        (((s.images.eraseIdx s.currentIndex.toNat).length : Int) - 1) := by omega
    have hv1 : (min s.currentIndex
        (((s.images.eraseIdx s.currentIndex.toNat).length : Int) - 1)).toNat <
        (s.images.eraseIdx s.currentIndex.toNat).length := by omega
    rw [delete_success_eq_clamp s h0 h1 hz]
    refine ⟨rfl, rfl, ?_, fun h => absurd h hz, fun _ => ⟨?_, rfl, ?_⟩⟩
    · show (s.images.eraseIdx s.currentIndex.toNat).length + 1 = s.images.length
      omega
    · show min s.currentIndex
          (((s.images.eraseIdx s.currentIndex.toNat).length : Int) - 1) =
        min s.currentIndex ((s.images.length : Int) - 2)
      omega
    · show (jsIndex (s.images.eraseIdx s.currentIndex.toNat)
          (min s.currentIndex
            (((s.images.eraseIdx s.currentIndex.toNat).length : Int) - 1))).map
          ImageRecord.url =
        some ((s.images.eraseIdx s.currentIndex.toNat).get
          ⟨(min s.currentIndex
            (((s.images.eraseIdx s.currentIndex.toNat).length : Int) - 1)).toNat, hv1⟩).url
      rw [jsIndex_valid _ _ hv0 hv1]
      rfl

/-- Witness for C4: the spec scenario images=[A,B,C], currentIndex=2, confirmed
delete succeeds. -/
theorem C4_witness :
    0 ≤ stABC.currentIndex ∧ stABC.currentIndex < (stABC.images.length : Int) ∧
    (deleteImage stABC true (DeleteResponse.httpStatus true)).1.images =
      stABC.images.eraseIdx stABC.currentIndex.toNat ∧
    (deleteImage stABC true (DeleteResponse.httpStatus true)).2 = Outcome.normal :=
  ⟨by decide, by decide,
   (C4_deleteCurrent_success stABC (by decide) (by decide)).2.1,
   (C4_deleteCurrent_success stABC (by decide) (by decide)).1⟩

/-- Counterexample to claim C1 as stated: from the state with images [A, B] and
currentIndex 1, a fetch whose successful result is the strictly shorter
non-empty list [X] leaves the resulting images non-empty while currentIndex is
NOT in range (it stays 1 with length 1): the index is left dangling, not
clamped. -/
theorem C1_counterexample :
    (fetchImages stAB (FetchResponse.ok [imgX])).1.images ≠ [] ∧
    ¬ indexInRange (fetchImages stAB (FetchResponse.ok [imgX])).1 := by
  decide

/-- Claim C1 as amended: the index invariant does hold after a confirmed delete
whose remote call succeeds (when the result is non-empty), and after a fetch
whose successful result is non-empty and either strictly longer than the old
list or still indexed by the old currentIndex; the excluded case — a strictly
shorter non-empty result with currentIndex at or beyond the new length — leaves
currentIndex dangling (see the counterexample). -/
theorem C1_index_clamped_amended (s : St) (newImages : List ImageRecord)
    (h0 : 0 ≤ s.currentIndex) :
    (s.currentIndex < (s.images.length : Int) →
      (deleteImage s true (DeleteResponse.httpStatus true)).1.images ≠ [] →
      indexInRange (deleteImage s true (DeleteResponse.httpStatus true)).1) ∧
    (newImages ≠ [] →
      (s.images.length < newImages.length ∨ s.currentIndex < (newImages.length : Int)) →
      indexInRange (fetchImages s (FetchResponse.ok newImages)).1) := by
  constructor
  · intro h1 hne
    by_cases hz : (s.images.eraseIdx s.currentIndex.toNat).length = 0
    · rw [delete_success_eq_toEmpty s h0 h1 hz] at hne
      exact absurd (List.length_eq_zero.mp hz) hne
    · rw [delete_success_eq_clamp s h0 h1 hz]
      constructor
      · show (0 : Int) ≤ min s.currentIndex
            (((s.images.eraseIdx s.currentIndex.toNat).length : Int) - 1)
        omega
      · show min s.currentIndex
            (((s.images.eraseIdx s.currentIndex.toNat).length : Int) - 1) <
          ((s.images.eraseIdx s.currentIndex.toNat).length : Int)
        omega
  · intro hne hok
    have hlen : 0 < newImages.length := List.length_pos.mpr hne
    have hv0 : 0 ≤ fetchNewIndex s newImages := by
      unfold fetchNewIndex
      split_ifs <;> omega
    have hv1 : (fetchNewIndex s newImages).toNat < newImages.length := by
      unfold fetchNewIndex
      split_ifs with hg
      · omega
      · rcases hok with hok | hok
        · exact absurd hok hg
        · omega
    rw [fetch_ok_eq s newImages hv0 hv1]
    constructor
    · exact hv0
    · show fetchNewIndex s newImages < (newImages.length : Int)
      omega

/-- Witness for C1 amended, at the concrete state with two images and
currentIndex 1: deleting keeps the invariant, and a fetch growing the list to
three keeps it as well. -/
theorem C1_witness :
    0 ≤ stAB.currentIndex ∧
    stAB.currentIndex < (stAB.images.length : Int) ∧
    (deleteImage stAB true (DeleteResponse.httpStatus true)).1.images ≠ [] ∧
    indexInRange (deleteImage stAB true (DeleteResponse.httpStatus true)).1 ∧
    ([imgA, imgB, imgX] : List ImageRecord) ≠ [] ∧
    indexInRange (fetchImages stAB (FetchResponse.ok [imgA, imgB, imgX])).1 :=
  ⟨by decide, by decide, by decide,
   (C1_index_clamped_amended stAB [imgA, imgB, imgX] (by decide)).1 (by decide) (by decide),
   by decide,
   (C1_index_clamped_amended stAB [imgA, imgB, imgX] (by decide)).2 (by decide)
     (Or.inl (by decide))⟩

/-- Counterexample to claim C3 as stated: from the state with images [A, B] and
currentIndex 1, a fetch whose listing succeeds with the shorter list [X] ends in
the user-visible failure notice, yet the state is not the state before the call:
images has already been replaced. -/
theorem C3_counterexample :
    (fetchImages stAB (FetchResponse.ok [imgX])).1.alerts =
      stAB.alerts ++ ["Failed to load images. Refresh page."] ∧
    (fetchImages stAB (FetchResponse.ok [imgX])).1.images ≠ stAB.images := by
  decide

/-- Claim C3 as amended: a fetch that fails at the remote call itself — the
fetch promise rejected or a non-ok status — leaves images and currentIndex
unchanged and appends the failure notice; but when the listing endpoint responds
successfully and only the rendering of the reconciled state fails, images has
already been replaced (see the counterexample). -/
theorem C3_failed_fetch_state_unchanged (s : St) :
    ((fetchImages s FetchResponse.rejected).1.images = s.images ∧
     (fetchImages s FetchResponse.rejected).1.currentIndex = s.currentIndex ∧
     (fetchImages s FetchResponse.rejected).1.alerts =
       s.alerts ++ ["Failed to load images. Refresh page."] ∧
     (fetchImages s FetchResponse.rejected).2 = Outcome.normal) ∧
    ((fetchImages s FetchResponse.httpError).1.images = s.images ∧
     (fetchImages s FetchResponse.httpError).1.currentIndex = s.currentIndex ∧
     (fetchImages s FetchResponse.httpError).1.alerts =
       s.alerts ++ ["Failed to load images. Refresh page."] ∧
     (fetchImages s FetchResponse.httpError).2 = Outcome.normal) :=
  ⟨⟨rfl, rfl, rfl, rfl⟩, ⟨rfl, rfl, rfl, rfl⟩⟩

/-- Claim C6: a fetch whose successful result is exactly one longer than the old
list sets currentIndex to the old length, the new last index. -/
theorem C6_fetch_growth_sets_last_index (s : St) (newImages : List ImageRecord)
    (hgrow : newImages.length = s.images.length + 1) :
    (fetchImages s (FetchResponse.ok newImages)).2 = Outcome.normal ∧
    (fetchImages s (FetchResponse.ok newImages)).1.images = newImages ∧
    (fetchImages s (FetchResponse.ok newImages)).1.currentIndex =
      (s.images.length : Int) := by
  have hlt : s.images.length < newImages.length := by omega
  have hv0 : 0 ≤ fetchNewIndex s newImages := by
    unfold fetchNewIndex
    rw [if_pos hlt]
    omega
  have hv1 : (fetchNewIndex s newImages).toNat < newImages.length := by
    unfold fetchNewIndex
    rw [if_pos hlt]
    omega
  rw [fetch_ok_eq s newImages hv0 hv1]
  refine ⟨rfl, rfl, ?_⟩
  show fetchNewIndex s newImages = (s.images.length : Int)
  unfold fetchNewIndex
  rw [if_pos hlt]
  omega

/-- Witness for C6: the two-image state receiving a three-image listing ends at
currentIndex 2. -/
theorem C6_witness :
    ([imgA, imgB, imgX] : List ImageRecord).length = stAB.images.length + 1 ∧
    (fetchImages stAB (FetchResponse.ok [imgA, imgB, imgX])).1.currentIndex =
      (stAB.images.length : Int) :=
  ⟨by decide,
   (C6_fetch_growth_sets_last_index stAB [imgA, imgB, imgX] (by decide)).2.2⟩

/-- Claim C7: with a non-empty list, stepPrev at index 0 and stepNext at the
last index (also via ArrowLeft and ArrowRight) leave the entire state unchanged;
otherwise they are selectImage(currentIndex - 1) and selectImage(currentIndex + 1)
respectively. -/
theorem C7_step_boundaries_noops (s : St) (ctrl confirmed : Bool)
    (resp : DeleteResponse) (hne : s.images ≠ []) :
    (s.currentIndex = 0 →
      stepPrev s = (s, Outcome.normal) ∧
      keydown s Key.arrowLeft ctrl confirmed resp = (s, Outcome.normal)) ∧
    (s.currentIndex = (s.images.length : Int) - 1 →
      stepNext s = (s, Outcome.normal) ∧
      keydown s Key.arrowRight ctrl confirmed resp = (s, Outcome.normal)) ∧
    (0 < s.currentIndex →
      stepPrev s = selectImage s (s.currentIndex - 1) ∧
      keydown s Key.arrowLeft ctrl confirmed resp = selectImage s (s.currentIndex - 1)) ∧
    (s.currentIndex < (s.images.length : Int) - 1 →
      stepNext s = selectImage s (s.currentIndex + 1) ∧
      keydown s Key.arrowRight ctrl confirmed resp = selectImage s (s.currentIndex + 1)) := by
  have hl : ¬ s.images.length = 0 := fun h => hne (List.length_eq_zero.mp h)
  refine ⟨fun h => ⟨?_, ?_⟩, fun h => ⟨?_, ?_⟩, fun h => ⟨?_, ?_⟩, fun h => ⟨?_, ?_⟩⟩
  · simp [stepPrev, h]
  · simp [keydown, hl, h]
  · simp [stepNext, h]
  · simp [keydown, hl, h]
  · simp [stepPrev, h, selectImage]
  · simp [keydown, hl, h, selectImage]
  · simp [stepNext, h, selectImage]
  · simp [keydown, hl, h, selectImage]

/-- Witness for C7 at the two-image state with currentIndex 1: stepNext is a
no-op at the last index, stepPrev is selectImage 0. -/
theorem C7_witness :
    stAB.images ≠ [] ∧
    stepNext stAB = (stAB, Outcome.normal) ∧
    stepPrev stAB = selectImage stAB (stAB.currentIndex - 1) :=
  ⟨by decide,
   ((C7_step_boundaries_noops stAB true true DeleteResponse.rejected
      (by decide)).2.1 (by decide)).1,
   ((C7_step_boundaries_noops stAB true true DeleteResponse.rejected
      (by decide)).2.2.1 (by decide)).1⟩

/-- Claim C8: submitting the upload form with no file selected issues no network
request, raises the validation notice immediately, and changes nothing else:
images, currentIndex and the upload control are untouched, regardless of any
would-be server response. -/
theorem C8_upload_no_file_no_request (s : St) (resp : UploadResponse)
    (listResp : FetchResponse) (h : s.fileSelected = false) :
    handleUpload s resp listResp =
      (alertMsg s "Please select a file to upload", Outcome.normal) ∧
    (handleUpload s resp listResp).1.requests = s.requests ∧
    (handleUpload s resp listResp).1.images = s.images ∧
    (handleUpload s resp listResp).1.currentIndex = s.currentIndex ∧
    (handleUpload s resp listResp).1.uploadBtnDisabled = s.uploadBtnDisabled ∧
    (handleUpload s resp listResp).1.uploadBtnLabel = s.uploadBtnLabel ∧
    (handleUpload s resp listResp).1.alerts =
      s.alerts ++ ["Please select a file to upload"] := by
  simp only [handleUpload, if_pos h, alertMsg]
  refine ⟨?_, ?_, ?_, ?_, ?_, ?_, ?_⟩ <;> trivial

/-- Witness for C8 at the two-image state (no file selected). -/
theorem C8_witness :
    stAB.fileSelected = false ∧
    (handleUpload stAB UploadResponse.ok (FetchResponse.ok [])).1.requests =
      stAB.requests ∧
    (handleUpload stAB UploadResponse.ok (FetchResponse.ok [])).1.alerts =
      stAB.alerts ++ ["Please select a file to upload"] :=
  ⟨by decide,
   (C8_upload_no_file_no_request stAB UploadResponse.ok (FetchResponse.ok [])
     (by decide)).2.1,
   (C8_upload_no_file_no_request stAB UploadResponse.ok (FetchResponse.ok [])
     (by decide)).2.2.2.2.2.2⟩

/-- Claim C2 is false of the code (a code bug): on every invocation with a file
selected — success or failure of the remote call alike — the finally block
references the block-scoped uploadBtn binding that is out of scope there, so the
handler ends in an uncaught ReferenceError, the upload control is left disabled
and its busy label is never reset: the uploading UI lock is never released. -/
theorem C2_upload_lock_never_released (s : St) (resp : UploadResponse)
    (listResp : FetchResponse) (h : s.fileSelected = true) :
    (handleUpload s resp listResp).1.uploadBtnDisabled = true ∧
    (handleUpload s resp listResp).1.uploadBtnLabel = "Uploading..." ∧
    (handleUpload s resp listResp).2 =
      Outcome.uncaughtError "ReferenceError: uploadBtn is not defined" := by
  have hne : ¬ s.fileSelected = false := by simp [h]
  cases resp with
  | ok =>
    simp only [handleUpload, if_neg hne, fetchImages_uploadBtnDisabled,
      fetchImages_uploadBtnLabel]
    refine ⟨?_, ?_, ?_⟩ <;> trivial
  | rejected m =>
    simp only [handleUpload, if_neg hne, alertMsg, request]
    refine ⟨?_, ?_, ?_⟩ <;> trivial
  | httpError errField =>
    simp only [handleUpload, if_neg hne, alertMsg, request]
    refine ⟨?_, ?_, ?_⟩ <;> trivial

/-- Witness for C2 at the two-image state with a file selected and a successful
upload response: the control stays disabled and the handler ends uncaught. -/
theorem C2_witness :
    ({ stAB with fileSelected := true } : St).fileSelected = true ∧
    (handleUpload { stAB with fileSelected := true } UploadResponse.ok
      (FetchResponse.ok [imgA, imgB, imgX])).1.uploadBtnDisabled = true ∧
    (handleUpload { stAB with fileSelected := true } UploadResponse.ok
      (FetchResponse.ok [imgA, imgB, imgX])).2 =
      Outcome.uncaughtError "ReferenceError: uploadBtn is not defined" :=
  ⟨by decide,
   (C2_upload_lock_never_released { stAB with fileSelected := true } UploadResponse.ok
     (FetchResponse.ok [imgA, imgB, imgX]) (by decide)).1,
   (C2_upload_lock_never_released { stAB with fileSelected := true } UploadResponse.ok
     (FetchResponse.ok [imgA, imgB, imgX]) (by decide)).2.2⟩

/-- Claim C9: when the thumbnail strip is in sync with the image list (one flag
per image), selectImage(i) for a valid i makes currentIndex i and marks exactly
one thumbnail as selected, namely the one at position i. -/
theorem C9_select_highlights_exactly_one (s : St) (i : Int) (h0 : 0 ≤ i)
    (h1 : i.toNat < s.images.length)
    (hsync : s.selectedFlags.length = s.images.length) :
    (selectImage s i).1.currentIndex = i ∧
    (selectImage s i).1.selectedFlags.length = s.images.length ∧
    (selectImage s i).1.selectedFlags[i.toNat]? = some true ∧
    (∀ j : Nat, j ≠ i.toNat → (selectImage s i).1.selectedFlags[j]? ≠ some true) := by
  have hEq := showImage_valid s i h0 h1
  rw [show selectImage = showImage from rfl, hEq]
  refine ⟨rfl, ?_, ?_, ?_⟩
  · show ((List.range s.selectedFlags.length).map
        (fun j => decide (Int.ofNat j = i))).length = s.images.length
    simp [hsync]
  · show ((List.range s.selectedFlags.length).map
        (fun j => decide (Int.ofNat j = i)))[i.toNat]? = some true
    rw [List.getElem?_map, List.getElem?_range (by omega : i.toNat < s.selectedFlags.length)]
    have hcast : Int.ofNat i.toNat = i := Int.toNat_of_nonneg h0
    simp [hcast, h0]
  · intro j hj
    show ((List.range s.selectedFlags.length).map
        (fun j => decide (Int.ofNat j = i)))[j]? ≠ some true
    by_cases hjl : j < s.selectedFlags.length
    · rw [List.getElem?_map, List.getElem?_range hjl]
      simp
      omega
    · rw [List.getElem?_eq_none
        (by simp only [List.length_map, List.length_range]; omega)]
      simp

/-- Witness for C9 at the two-image state selecting index 0. -/
theorem C9_witness :
    (0 : Int) ≤ 0 ∧ (0 : Int).toNat < stAB.images.length ∧
    stAB.selectedFlags.length = stAB.images.length ∧
    (selectImage stAB 0).1.currentIndex = 0 ∧
    (selectImage stAB 0).1.selectedFlags[(0 : Int).toNat]? = some true :=
  ⟨by decide, by decide, by decide,
   (C9_select_highlights_exactly_one stAB 0 (by decide) (by decide) (by decide)).1,
   (C9_select_highlights_exactly_one stAB 0 (by decide) (by decide) (by decide)).2.2.1⟩
